import Mathlib

/-!
Verification of the msmbuilder repository fragment consisting of
src/msmbuilder/decomposition/tica.py and
src/msmbuilder/example_datasets/desres_datasets.py.

The numeric code is embedded shallowly over exact rationals: a sequence is a
list of rows (feature vectors), matrices are lists of rows, and the external
numeric kernels (the scipy generalized symmetric eigensolver and the numpy
matrix inverse) are passed in as explicit function parameters, since the
repository treats them as external dependencies. Python None fields are
modelled with Option where a claim depends on the None state
(n_features, n_observations_, n_sequences_, the eigendecomposition cache);
the six accumulator arrays are stored as plain lists that are only read after
initialization, matching the source, where the first None that Python
dereferences on an uninitialized model is n_observations_ (inside the two_N
expression of the derived properties), which we key the TypeError path on.
Floating point is replaced by exact rational arithmetic; the np.allclose
symmetry tests in _solve become exact symmetry tests, which agree with the
source on every matrix produced by exact accumulation.
-/

namespace MSMBuilder

abbrev Vec := List ℚ
abbrev Mat := List (List ℚ)

/-- Elementwise addition of two vectors of equal length (numpy +). -/
def vadd (v w : Vec) : Vec := List.zipWith (· + ·) v w

/-- Elementwise addition of two matrices of equal shape (numpy +). -/
def madd (A B : Mat) : Mat := List.zipWith vadd A B

/-- Elementwise subtraction of two matrices (numpy -). -/
def msub (A B : Mat) : Mat := List.zipWith (List.zipWith (· - ·)) A B

def zeroVec (n : Nat) : Vec := List.replicate n 0

def zeroMat (n m : Nat) : Mat := List.replicate n (zeroVec m)

/-- Scalar division of a vector, entrywise (numpy / scalar). -/
def vdiv (v : Vec) (c : ℚ) : Vec := v.map (· / c)

/-- Scalar division of a matrix, entrywise (numpy / scalar). -/
def mdiv (A : Mat) (c : ℚ) : Mat := A.map (fun r => r.map (· / c))

/-- Scalar multiple of a matrix (numpy scalar *). -/
def smulM (c : ℚ) (A : Mat) : Mat := A.map (fun r => r.map (c * ·))

/-- np.outer v w. -/
def outer (v w : Vec) : Mat := v.map (fun a => w.map (fun b => a * b))

/-- Column sums of a matrix with n columns: X.sum(axis=0).  The second
argument fixes the width so that the empty slice sums to zeros(n), as in
numpy. -/
def colSum (X : Mat) (n : Nat) : Vec := X.foldl vadd (zeroVec n)

/-- P.T dot Q for two row-lists with the same number of rows, expressed as
the sum over paired rows of their outer products, which is the standard
entrywise identity for that matrix product. -/
def outerSum (P Q : Mat) (n : Nat) : Mat :=
  (List.zipWith outer P Q).foldl madd (zeroMat n n)

/-- Matrix transpose of a rectangular row-list (numpy .T): column j of the
result is the list of entries at index j of each row. -/
def transposeM (A : Mat) : Mat :=
  (List.range (A.headD []).length).map (fun j => A.map (fun r => r.getD j 0))

/-- Dot product of two vectors of equal length. -/
def dot (v w : Vec) : ℚ := (List.zipWith (· * ·) v w).sum

/-- Matrix-vector product M v (rows of M dotted with v). -/
def mvMul (M : Mat) (v : Vec) : Vec := M.map (fun r => dot r v)

/-- Matrix product A B over the row-list representation. -/
def matMul (A B : Mat) : Mat :=
  A.map (fun r => (transposeM B).map (fun c => dot r c))

/-- np.trace. -/
def traceM (A : Mat) : ℚ :=
  (A.enum.map (fun p => p.2.getD p.1 0)).sum

/-- np.eye n. -/
def eyeN (n : Nat) : Mat :=
  (List.range n).map (fun i => (List.range n).map (fun j => if i = j then (1 : ℚ) else 0))

/-- The Python exceptions that the two modules can raise on the paths the
claims exercise. -/
inductive PyErr
  /-- Arithmetic on a None statistic (uninitialized model). -/
  | typeError
  /-- RuntimeError: The model must be fit() before use. -/
  | runtimeNotFit
  /-- RuntimeError: offset correlation matrix is not symmetric. -/
  | asymOffset
  /-- RuntimeError: correlation matrix is not symmetric. -/
  | asymCov
  /-- ValueError: All sequences were shorter than the lag time. -/
  | valueErrorShort
  /-- ValueError raised by scipy when the requested eigvals range is invalid. -/
  | valueErrorEigRange
  /-- AssertionError from the precondition assert in score(). -/
  | assertionError
deriving DecidableEq

/-- State of one tICA estimator instance (tica.py, class tICA).  Field names
follow the source with the leading underscore dropped. -/
structure TICA where
  n_components : Option Nat
  lag_time : Nat
  gamma : ℚ
  weighted_transform : Bool
  n_features : Option Nat
  n_observations_ : Option Nat
  n_sequences_ : Option Nat
  initialized : Bool
  outer_0_to_T_lagged : Mat
  sum_0_to_TminusTau : Vec
  sum_tau_to_T : Vec
  sum_0_to_T : Vec
  outer_0_to_TminusTau : Mat
  outer_offset_to_T : Mat
  /-- Cached (eigenvalues, eigenvectors) of the most recent solve; the
  eigenvectors are stored as the list of columns.  None until first solved. -/
  eigencache : Option (List ℚ × List Vec)
  is_dirty : Bool
deriving DecidableEq

/-- tICA.__init__(n_components, lag_time, gamma, weighted_transform). -/
def mkTICA (nc : Option Nat) (lag : Nat) (g : ℚ) (wt : Bool) : TICA :=
  { n_components := nc
    lag_time := lag
    gamma := g
    weighted_transform := wt
    n_features := none
    n_observations_ := none
    n_sequences_ := none
    initialized := false
    outer_0_to_T_lagged := []
    sum_0_to_TminusTau := []
    sum_tau_to_T := []
    sum_0_to_T := []
    outer_0_to_TminusTau := []
    outer_offset_to_T := []
    eigencache := none
    is_dirty := true }

/-- X.shape[1] of a well-formed (rectangular, nonempty) 2-D array in the
row-list embedding. -/
def width (X : Mat) : Nat := (X.headD []).length

/-- tICA.initialize0(n_features). -/
def initialize0 (s : TICA) (nf : Nat) : TICA :=
  if s.initialized then s
  else
    { s with
      n_components := some (s.n_components.getD nf)
      n_features := some nf
      n_observations_ := some 0
      n_sequences_ := some 0
      outer_0_to_T_lagged := zeroMat nf nf
      sum_0_to_TminusTau := zeroVec nf
      sum_tau_to_T := zeroVec nf
      sum_0_to_T := zeroVec nf
      outer_0_to_TminusTau := zeroMat nf nf
      outer_offset_to_T := zeroMat nf nf
      initialized := true }

/-- The pre-lag window X[:-tau].  For tau = 0 the Python slice X[:-0] is
empty, which the branch on tau reproduces. -/
def preWindow (X : Mat) (tau : Nat) : Mat :=
  if tau = 0 then [] else X.take (X.length - tau)

/-- The body of tICA._fit after initialization: skip sequences not strictly
longer than the lag time, otherwise accumulate the six running sums and the
two counters and mark the eigendecomposition cache dirty. -/
def accumulate (t : TICA) (X : Mat) : TICA :=
  if X.length ≤ t.lag_time then t
  else
    { t with
      n_observations_ := t.n_observations_.map (· + X.length)
      n_sequences_ := t.n_sequences_.map (· + 1)
      outer_0_to_T_lagged := madd t.outer_0_to_T_lagged
        (outerSum (preWindow X t.lag_time) (X.drop t.lag_time) (width X))
      sum_0_to_TminusTau := vadd t.sum_0_to_TminusTau
        (colSum (preWindow X t.lag_time) (width X))
      sum_tau_to_T := vadd t.sum_tau_to_T (colSum (X.drop t.lag_time) (width X))
      sum_0_to_T := vadd t.sum_0_to_T (colSum X (width X))
      outer_0_to_TminusTau := madd t.outer_0_to_TminusTau
        (outerSum (preWindow X t.lag_time) (preWindow X t.lag_time) (width X))
      outer_offset_to_T := madd t.outer_offset_to_T
        (outerSum (X.drop t.lag_time) (X.drop t.lag_time) (width X))
      is_dirty := true }

/-- tICA._fit(X): initialize on first data, then accumulate. -/
def _fit (s : TICA) (X : Mat) : TICA :=
  accumulate (initialize0 s (width X)) X

/-- tICA.fit(sequences): clear the initialized flag, run _fit over every
sequence, then raise ValueError if no sequence was long enough to count.
The mutated model is returned alongside the optional exception because
Python raises after having mutated self. -/
def fit (s : TICA) (seqs : List Mat) : TICA × Option PyErr :=
  let s1 := seqs.foldl _fit { s with initialized := false }
  (s1, if s1.n_sequences_ = some 0 then some PyErr.valueErrorShort else none)

/-- tICA.partial_fit(X): accumulate without resetting and return self. -/
def partialFit (s : TICA) (X : Mat) : TICA := _fit s X

/-- self.n_components read as a number (defined only after initialization,
which every use below guards). -/
def ncD (s : TICA) : Nat := s.n_components.getD 0

/-- self.n_features read as a number. -/
def nfD (s : TICA) : Nat := s.n_features.getD 0

/-- two_N = 2 * (n_observations_ - lag_time * n_sequences_), the shared
normalizer of the derived statistics, computed on an initialized model. -/
def two_N (s : TICA) : ℚ :=
  2 * ((s.n_observations_.getD 0 : ℚ) - (s.lag_time : ℚ) * (s.n_sequences_.getD 0 : ℚ))

/-- tICA.means_ property. -/
def means_ (s : TICA) : Vec :=
  vdiv (vadd s.sum_0_to_TminusTau s.sum_tau_to_T) (two_N s)

/-- tICA.offset_correlation_ property. -/
def offset_correlation_ (s : TICA) : Mat :=
  msub (mdiv (madd s.outer_0_to_T_lagged (transposeM s.outer_0_to_T_lagged)) (two_N s))
    (outer (means_ s) (means_ s))

/-- tICA.covariance_ property. -/
def covariance_ (s : TICA) : Mat :=
  msub (mdiv (madd s.outer_0_to_TminusTau s.outer_offset_to_T) (two_N s))
    (outer (means_ s) (means_ s))

/-- The external scipy.linalg.eigh kernel, abstracted: given the eigvals
range bounds lo and hi and the two matrices, it returns a list of
eigenvalues together with the matching list of eigenvector columns.  The
repository treats this solver as an external dependency, so the development
is parameterized over it. -/
abbrev Solver := Int → Int → Mat → Mat → List ℚ × List Vec

/-- The descending comparison used to reproduce
ind = np.argsort(vals)[::-1] applied jointly to vals and the columns of
vecs: eigenpairs are sorted by decreasing eigenvalue. -/
def pairGE (p q : ℚ × Vec) : Prop := q.1 ≤ p.1

instance : DecidableRel pairGE := fun p q => inferInstanceAs (Decidable (q.1 ≤ p.1))

instance : IsTotal (ℚ × Vec) pairGE := ⟨fun p q => le_total q.1 p.1⟩

instance : IsTrans (ℚ × Vec) pairGE := ⟨fun _ _ _ h1 h2 => le_trans h2 h1⟩

/-- tICA._solve(), as a function from the state to the full solved
eigensystem (the sorted value list and the matching column list) or the
Python exception it raises.  The branches mirror the source: a clean cache
of sufficient width is returned as is; a missing cache with a clean dirty
flag would hit len(None) in Python (TypeError); an uninitialized model has
n_observations_ = None, so the == 0 test is False and the subsequent
two_N arithmetic on None raises TypeError; an initialized model with zero
observations raises the RuntimeError; then the two symmetry checks run, the
regularized rhs is formed, scipy is called on the eigvals range
(n_features - n_components, n_features - 1) - scipy rejects an invalid
range with ValueError - and the eigenpairs are sorted by decreasing value. -/
def _solve (solver : Solver) (s : TICA) : Except PyErr (List ℚ × List Vec) :=
  let fresh : Except PyErr (List ℚ × List Vec) :=
    match s.n_observations_ with
    | none => Except.error PyErr.typeError
    | some n =>
      if n = 0 then Except.error PyErr.runtimeNotFit
      else
        let C := offset_correlation_ s
        let S := covariance_ s
        if C ≠ transposeM C then Except.error PyErr.asymOffset
        else if S ≠ transposeM S then Except.error PyErr.asymCov
        else
          let lo : Int := (nfD s : Int) - (ncD s : Int)
          let hi : Int := (nfD s : Int) - 1
          if lo < 0 ∨ hi < lo then Except.error PyErr.valueErrorEigRange
          else
            let vv := solver lo hi C
              (madd S (smulM (s.gamma / (nfD s : ℚ) * traceM S) (eyeN (nfD s))))
            let sorted := List.insertionSort pairGE (vv.1.zip vv.2)
            Except.ok (sorted.map Prod.fst, sorted.map Prod.snd)
  if s.is_dirty = false then
    match s.eigencache with
    | some c => if ncD s ≤ c.1.length then Except.ok c else fresh
    | none => Except.error PyErr.typeError
  else fresh

/-- tICA.eigenvalues_ property: solve, then take the first n_components
values. -/
def eigenvaluesE (solver : Solver) (s : TICA) : Except PyErr (List ℚ) :=
  (_solve solver s).map (fun p => p.1.take (ncD s))

/-- tICA.eigenvectors_ property: solve, then keep the first n_components
eigenvector columns (the list is the list of columns). -/
def eigenvectorsE (solver : Solver) (s : TICA) : Except PyErr (List Vec) :=
  (_solve solver s).map (fun p => p.2.take (ncD s))

/-- tICA.components_ property: eigenvectors_[:, :n_components].T.  In the
column-list representation the transpose of the kept columns is the same
list read as rows, so the data agrees with eigenvectorsE. -/
def componentsE (solver : Solver) (s : TICA) : Except PyErr (List Vec) :=
  (eigenvectorsE solver s).map (fun cols => cols)

/-- tICA.timescales_ property: -lag_time / log(eigenvalue) over the first
n_components solved eigenvalues.  The external np.log kernel is passed in
as a parameter. -/
def timescalesE (log : ℚ → ℚ) (solver : Solver) (s : TICA) : Except PyErr (List ℚ) :=
  (_solve solver s).map
    (fun p => (p.1.take (ncD s)).map (fun l => -(s.lag_time : ℚ) / log l))

/-- tICA.score_ property: the sum of the first n_components eigenvalues. -/
def scoreE (solver : Solver) (s : TICA) : Except PyErr ℚ :=
  (_solve solver s).map (fun p => (p.1.take (ncD s)).sum)

/-- Result of tICA.score(): either a finite value or the NaN returned when
the denominator matrix is singular. -/
inductive ScoreR
  | nan
  | val (q : ℚ)
deriving DecidableEq

/-- V.T dot M dot V where V is given as a list of columns. -/
def quadForm (V : List Vec) (M : Mat) : Mat :=
  V.map (fun vi => V.map (fun vj => dot vi (mvMul M vj)))

/-- tICA.score(sequences): assert the model is initialized, read
self.eigenvectors_ (which may raise through _solve), build a fresh model of
the same class with only lag_time carried over (gamma and the rest default),
partial_fit every scoring sequence into it, then return
trace(numerator . inv(denominator)); np.linalg.inv raising LinAlgError on a
singular denominator is caught and NaN returned.  The external inverse is
the inv parameter, returning none exactly on singular input. -/
def score (solver : Solver) (inv : Mat → Option Mat) (s : TICA) (seqs : List Mat) :
    Except PyErr ScoreR :=
  if s.initialized = false then Except.error PyErr.assertionError
  else
    match eigenvectorsE solver s with
    | Except.error e => Except.error e
    | Except.ok V =>
      let m2 := seqs.foldl _fit (mkTICA none s.lag_time (1 / 20) false)
      match m2.n_observations_ with
      | none => Except.error PyErr.typeError
      | some _ =>
        let num := quadForm V (offset_correlation_ m2)
        let den := quadForm V (covariance_ m2)
        match inv den with
        | none => Except.ok ScoreR.nan
        | some dinv => Except.ok (ScoreR.val (traceM (matMul num dinv)))

/-- A concrete stand-in eigensolver used to instantiate witnesses: it
returns (hi - lo + 1).toNat eigenvalues 0, -1, -2, ... with dummy columns,
which satisfies the length contract of scipy.linalg.eigh. -/
def trivialSolver : Solver := fun lo hi _ _ =>
  (List.replicate (hi - lo + 1).toNat (0 : ℚ),
   List.replicate (hi - lo + 1).toNat ([0] : Vec))

/-!
Embedding of src/msmbuilder/example_datasets/desres_datasets.py.

The filesystem is modelled as the set of directories that exist plus a
counter of how many times _extract has been invoked; cache() and get() are
state transformers over it.  The class hierarchy matters for one claim:
DESRESFIP35_2.__init__ invokes super(DESRESFIP35_1, self).__init__, and in
Python super(T, obj) raises TypeError unless the class of obj is T or a
subclass of T; DESRESFIP35_2 derives directly from _DESRESDataset, not from
DESRESFIP35_1, so the check fails.  The method resolution order of each
class is embedded explicitly to decide that check.
-/

/-- Modelled from the spec: get_data_home from example_datasets/base.py is
not part of the given sources; the spec describes it as falling back to a
conventional per-user data directory under the home directory when no
override is supplied. -/
def get_data_home (dataHome : Option String) : String :=
  dataHome.getD "~/msmbuilder_data"

/-- One DESRES dataset descriptor after construction. -/
structure DDataset where
  name : String
  target_directory : String
  data_home : String
  data_dir : String
  cached : Bool
  stride : Nat
  num_dcd_files : Nat
  tarball_filename : String
  mae_filename : String
  top_dir : String
  /-- Source field dcd_prefix: the per-segment file name stem. -/
  dcd_stem : String
  dcd_is_only_protein : Bool
  protein_indices : Option (List Nat)
deriving DecidableEq

/-- The concrete classes of the module. -/
inductive DCls
  | dBase
  | d2F4K
  | dBPTI
  | dFIP35_1
  | dFIP35_2
deriving DecidableEq

/-- Method resolution order of each class (object omitted): every concrete
dataset derives directly from the base class. -/
def mroOf : DCls → List DCls
  | DCls.dBase => [DCls.dBase]
  | c => [c, DCls.dBase]

/-- The class literally named in the super(...) call of each constructor in
the source.  Line 217 of desres_datasets.py passes DESRESFIP35_1 inside
DESRESFIP35_2.__init__. -/
def superTarget : DCls → DCls
  | DCls.dFIP35_2 => DCls.dFIP35_1
  | c => c

/-- _DESRESDataset.__init__(data_home, stride), run with the
target_directory and any fields the subclass assigned before the super call
already in place. -/
def baseInit (name target_directory : String) (dataHome : Option String) (stride : Nat) :
    DDataset :=
  let home := get_data_home dataHome
  { name := name
    target_directory := target_directory
    data_home := home
    data_dir := home ++ "/" ++ target_directory
    cached := false
    stride := stride
    num_dcd_files := 0
    tarball_filename := ""
    mae_filename := ""
    top_dir := ""
    dcd_stem := ""
    dcd_is_only_protein := true
    protein_indices := none }

/-- super(T, self).__init__ dispatch inside the constructor of class c:
valid only when T occurs in the mro of c, otherwise TypeError. -/
def superInit (c : DCls) (name target_directory : String) (dataHome : Option String)
    (stride : Nat) : Except PyErr DDataset :=
  if superTarget c ∈ mroOf c then Except.ok (baseInit name target_directory dataHome stride)
  else Except.error PyErr.typeError

/-- DESRESFIP35_1.__init__(data_home, stride): name and target directory are
assigned, the base initializer runs, then the variant-1 literals are
installed. -/
def initFIP35_1 (tarballPath : String) (dataHome : Option String) (stride : Nat) :
    Except PyErr DDataset :=
  let nm := "DESRES_FIP35_1"
  let td := nm ++ "_stride" ++ toString stride
  (superInit DCls.dFIP35_1 nm td dataHome stride).map fun d =>
    { d with
      stride := stride
      num_dcd_files := 50
      tarball_filename := tarballPath ++ "/DESRES-Trajectory-ww_1-protein.tar"
      mae_filename := "DESRES-Trajectory-ww_1-protein/ww.mae"
      protein_indices := some (List.range 528)
      top_dir := "DESRES-Trajectory-ww_1-protein"
      dcd_stem := "ww_1-protein"
      dcd_is_only_protein := true }

/-- DESRESFIP35_2.__init__(data_home, stride): name and target directory are
assigned, then the super call names DESRESFIP35_1, which Python rejects with
TypeError before any variant-2 literal after that line is installed. -/
def initFIP35_2 (tarballPath : String) (dataHome : Option String) (stride : Nat) :
    Except PyErr DDataset :=
  let nm := "DESRES_FIP35_2"
  let td := nm ++ "_stride" ++ toString stride
  (superInit DCls.dFIP35_2 nm td dataHome stride).map fun d =>
    { d with
      stride := stride
      num_dcd_files := 50
      tarball_filename := tarballPath ++ "/DESRES-Trajectory-ww_2-protein.tar"
      mae_filename := "DESRES-Trajectory-ww_2-protein/ww.mae"
      protein_indices := some (List.range 528)
      top_dir := "DESRES-Trajectory-ww_2-protein"
      dcd_stem := "ww_2-protein"
      dcd_is_only_protein := true }

/-- Filesystem model: which directories exist, and how many times _extract
has run. -/
structure FSState where
  dirs : List String
  extractCount : Nat
deriving DecidableEq

/-- _DESRESDataset.cache(): create data_home if missing, and if the
per-dataset data_dir is missing create it and run _extract; finally set the
cached flag. -/
def cache (d : DDataset) (fs : FSState) : DDataset × FSState :=
  let fs1 := if d.data_home ∈ fs.dirs then fs else { fs with dirs := d.data_home :: fs.dirs }
  let fs2 :=
    if d.data_dir ∈ fs1.dirs then fs1
    else { dirs := d.data_dir :: fs1.dirs, extractCount := fs1.extractCount + 1 }
  ({ d with cached := true }, fs2)

/-- _DESRESDataset.get(): call cache() unless the cached flag is already
set, then load the cached files (a read-only step with no effect on the
modelled state). -/
def get (d : DDataset) (fs : FSState) : DDataset × FSState :=
  if d.cached then (d, fs) else cache d fs

/-- A tiny fitted model used to instantiate witnesses: one sequence of two
one-feature samples at lag 1. -/
def demoModel : TICA := _fit (mkTICA none 1 (mkRat 1 20) false) [[1], [2]]

/-- A concrete stand-in for the external np.log kernel in witnesses; its
values are irrelevant to the statements that use it. -/
def demoLog : ℚ → ℚ := fun q => q + 1

/-- A concrete dataset descriptor for witnesses. -/
def demoDataset : DDataset := baseInit "demo" "demo_stride1" none 1

/-- An empty filesystem for witnesses. -/
def demoFS : FSState := { dirs := [], extractCount := 0 }

end MSMBuilder

namespace MSMBuilder

/-- initialize0 is the identity on an initialized model. -/
theorem initialize0_noop (s : TICA) (n : Nat) (h : s.initialized = true) :
    initialize0 s n = s := by
  rw [initialize0, if_pos h]

/-- initialize0 on an uninitialized model produces the zeroed record. -/
theorem initialize0_run (s : TICA) (n : Nat) (h : s.initialized = false) :
    initialize0 s n =
      { s with
        n_components := some (s.n_components.getD n)
        n_features := some n
        n_observations_ := some 0
        n_sequences_ := some 0
        outer_0_to_T_lagged := zeroMat n n
        sum_0_to_TminusTau := zeroVec n
        sum_tau_to_T := zeroVec n
        sum_0_to_T := zeroVec n
        outer_0_to_TminusTau := zeroMat n n
        outer_offset_to_T := zeroMat n n
        initialized := true } := by
  rw [initialize0, if_neg (by simp [h])]

/-- initialize0 never changes the lag time. -/
theorem initialize0_lag (s : TICA) (n : Nat) : (initialize0 s n).lag_time = s.lag_time := by
  unfold initialize0
  split <;> rfl

/-- accumulate never changes the lag time. -/
theorem accumulate_lag (t : TICA) (X : Mat) : (accumulate t X).lag_time = t.lag_time := by
  unfold accumulate
  split <;> rfl

/-- accumulate never changes the initialized flag. -/
theorem accumulate_init (t : TICA) (X : Mat) :
    (accumulate t X).initialized = t.initialized := by
  unfold accumulate
  split <;> rfl

/-- accumulate skips a sequence not strictly longer than the lag time. -/
theorem accumulate_short (t : TICA) (X : Mat) (hX : X.length ≤ t.lag_time) :
    accumulate t X = t := by
  rw [accumulate, if_pos hX]

/-- _fit never changes the lag time. -/
theorem _fit_lag (s : TICA) (X : Mat) : (_fit s X).lag_time = s.lag_time := by
  rw [_fit, accumulate_lag, initialize0_lag]

/-- _fit leaves the model initialized when it starts uninitialized. -/
theorem _fit_init_true (s : TICA) (X : Mat) (h : s.initialized = false) :
    (_fit s X).initialized = true := by
  rw [_fit, accumulate_init, initialize0_run s _ h]

/-- On an initialized model, a sequence not longer than the lag time leaves
the state untouched. -/
theorem _fit_short_noop (t : TICA) (X : Mat) (ht : t.initialized = true)
    (hX : X.length ≤ t.lag_time) : _fit t X = t := by
  rw [_fit, initialize0_noop t _ ht, accumulate, if_pos hX]

/-- On an initialized model, a sequence strictly longer than the lag time
adds its contribution to every running sum and both counters. -/
theorem _fit_grow (t : TICA) (X : Mat) (ht : t.initialized = true)
    (hX : ¬ X.length ≤ t.lag_time) :
    _fit t X =
      { t with
        n_observations_ := t.n_observations_.map (· + X.length)
        n_sequences_ := t.n_sequences_.map (· + 1)
        outer_0_to_T_lagged := madd t.outer_0_to_T_lagged
          (outerSum (preWindow X t.lag_time) (X.drop t.lag_time) (width X))
        sum_0_to_TminusTau := vadd t.sum_0_to_TminusTau
          (colSum (preWindow X t.lag_time) (width X))
        sum_tau_to_T := vadd t.sum_tau_to_T (colSum (X.drop t.lag_time) (width X))
        sum_0_to_T := vadd t.sum_0_to_T (colSum X (width X))
        outer_0_to_TminusTau := madd t.outer_0_to_TminusTau
          (outerSum (preWindow X t.lag_time) (preWindow X t.lag_time) (width X))
        outer_offset_to_T := madd t.outer_offset_to_T
          (outerSum (X.drop t.lag_time) (X.drop t.lag_time) (width X))
        is_dirty := true } := by
  rw [_fit, initialize0_noop t _ ht, accumulate, if_neg hX]

/-- A fresh (uninitialized) model accumulating one sufficiently long
sequence: initialization zeroes everything, then the contribution of the
sequence is added. -/
theorem _fit_fresh (s : TICA) (X : Mat) (h : s.initialized = false)
    (hX : ¬ X.length ≤ s.lag_time) :
    _fit s X =
      { s with
        n_components := some (s.n_components.getD (width X))
        n_features := some (width X)
        n_observations_ := some X.length
        n_sequences_ := some 1
        outer_0_to_T_lagged := madd (zeroMat (width X) (width X))
          (outerSum (preWindow X s.lag_time) (X.drop s.lag_time) (width X))
        sum_0_to_TminusTau := vadd (zeroVec (width X))
          (colSum (preWindow X s.lag_time) (width X))
        sum_tau_to_T := vadd (zeroVec (width X)) (colSum (X.drop s.lag_time) (width X))
        sum_0_to_T := vadd (zeroVec (width X)) (colSum X (width X))
        outer_0_to_TminusTau := madd (zeroMat (width X) (width X))
          (outerSum (preWindow X s.lag_time) (preWindow X s.lag_time) (width X))
        outer_offset_to_T := madd (zeroMat (width X) (width X))
          (outerSum (X.drop s.lag_time) (X.drop s.lag_time) (width X))
        initialized := true
        is_dirty := true } := by
  rw [_fit, initialize0_run s _ h, accumulate, if_neg hX]
  simp

/-- Folding _fit over a list of sequences that are all too short leaves an
initialized model untouched. -/
theorem foldl_fit_short (l : List Mat) : ∀ t : TICA, t.initialized = true →
    (∀ X ∈ l, X.length ≤ t.lag_time) → l.foldl _fit t = t := by
  induction l with
  | nil => intro t _ _; rfl
  | cons X rest ih =>
    intro t ht hall
    rw [List.foldl_cons, _fit_short_noop t X ht (hall X (by simp))]
    exact ih t ht fun Y hY => hall Y (List.mem_cons_of_mem X hY)

/-- Claim C2 counterexample: the claim asserts that fit() on only-short
sequences leaves every public statistic unchanged, but fit() clears the
initialized flag before iterating, so the first _fit call re-initializes
and zeroes everything before the ValueError is raised: a model that held
two observations holds zero after the failing call. -/
theorem claim2_counterexample :
    (fit (_fit (mkTICA none 1 (mkRat 1 20) false) [[1], [2]]) [[[3]]]).2 =
      some PyErr.valueErrorShort ∧
    (_fit (mkTICA none 1 (mkRat 1 20) false) [[1], [2]]).n_observations_ = some 2 ∧
    (fit (_fit (mkTICA none 1 (mkRat 1 20) false) [[1], [2]]) [[[3]]]).1.n_observations_ =
      some 0 := by
  refine ⟨by decide, by decide, by decide⟩

/-- Claim C2 as amended: fit() on a nonempty collection of sequences each
of length at most lag_time does raise the sequences-too-short ValueError,
but instead of leaving the public statistics unchanged it resets them: the
failing call leaves the model re-initialized to the width of the first
sequence with zero counters and zero accumulators. -/
theorem claim2_amended_fit_short_raises_and_resets (s : TICA) (seqs : List Mat)
    (hne : seqs ≠ []) (hshort : ∀ X ∈ seqs, X.length ≤ s.lag_time) :
    (fit s seqs).2 = some PyErr.valueErrorShort ∧
    (fit s seqs).1.n_observations_ = some 0 ∧
    (fit s seqs).1.n_sequences_ = some 0 ∧
    (fit s seqs).1.outer_0_to_T_lagged =
      zeroMat (width (seqs.headD [])) (width (seqs.headD [])) ∧
    (fit s seqs).1.sum_0_to_TminusTau = zeroVec (width (seqs.headD [])) ∧
    (fit s seqs).1.sum_tau_to_T = zeroVec (width (seqs.headD [])) ∧
    (fit s seqs).1.sum_0_to_T = zeroVec (width (seqs.headD [])) ∧
    (fit s seqs).1.outer_0_to_TminusTau =
      zeroMat (width (seqs.headD [])) (width (seqs.headD [])) ∧
    (fit s seqs).1.outer_offset_to_T =
      zeroMat (width (seqs.headD [])) (width (seqs.headD [])) := by
  obtain ⟨X, rest, rfl⟩ := List.exists_cons_of_ne_nil hne
  have hX : X.length ≤ s.lag_time := hshort X (by simp)
  have hA : ({ s with initialized := false } : TICA).initialized = false := rfl
  have hstep : _fit { s with initialized := false } X =
      initialize0 { s with initialized := false } (width X) := by
    rw [_fit, accumulate, if_pos (by rw [initialize0_lag]; exact hX)]
  have hinit : (initialize0 { s with initialized := false } (width X)).initialized = true := by
    rw [initialize0_run _ _ hA]
  have hstate : (X :: rest).foldl _fit { s with initialized := false } =
      initialize0 { s with initialized := false } (width X) := by
    rw [List.foldl_cons, hstep]
    exact foldl_fit_short rest _ hinit fun Y hY => by
      rw [initialize0_lag]
      exact hshort Y (List.mem_cons_of_mem X hY)
  have hrun := initialize0_run { s with initialized := false } (width X) hA
  refine ⟨?_, ?_, ?_, ?_, ?_, ?_, ?_, ?_, ?_⟩
  · show (if ((X :: rest).foldl _fit { s with initialized := false }).n_sequences_ = some 0
      then some PyErr.valueErrorShort else none) = some PyErr.valueErrorShort
    rw [hstate, hrun]
    rfl
  · show ((X :: rest).foldl _fit { s with initialized := false }).n_observations_ = some 0
    rw [hstate, hrun]
  · show ((X :: rest).foldl _fit { s with initialized := false }).n_sequences_ = some 0
    rw [hstate, hrun]
  · show ((X :: rest).foldl _fit { s with initialized := false }).outer_0_to_T_lagged =
      zeroMat (width ((X :: rest).headD [])) (width ((X :: rest).headD []))
    rw [hstate, hrun]
    rfl
  · show ((X :: rest).foldl _fit { s with initialized := false }).sum_0_to_TminusTau =
      zeroVec (width ((X :: rest).headD []))
    rw [hstate, hrun]
    rfl
  · show ((X :: rest).foldl _fit { s with initialized := false }).sum_tau_to_T =
      zeroVec (width ((X :: rest).headD []))
    rw [hstate, hrun]
    rfl
  · show ((X :: rest).foldl _fit { s with initialized := false }).sum_0_to_T =
      zeroVec (width ((X :: rest).headD []))
    rw [hstate, hrun]
    rfl
  · show ((X :: rest).foldl _fit { s with initialized := false }).outer_0_to_TminusTau =
      zeroMat (width ((X :: rest).headD [])) (width ((X :: rest).headD []))
    rw [hstate, hrun]
    rfl
  · show ((X :: rest).foldl _fit { s with initialized := false }).outer_offset_to_T =
      zeroMat (width ((X :: rest).headD [])) (width ((X :: rest).headD []))
    rw [hstate, hrun]
    rfl

/-- Claim C2 amended witness: a fitted one-feature model refit with a
single too-short sequence. -/
theorem claim2_witness :
    ([[[3]]] : List Mat) ≠ [] ∧
    (fit (_fit (mkTICA none 1 (mkRat 1 20) false) [[1], [2]]) [[[3]]]).2 =
      some PyErr.valueErrorShort ∧
    (fit (_fit (mkTICA none 1 (mkRat 1 20) false) [[1], [2]]) [[[3]]]).1.n_sequences_ =
      some 0 := by
  have h := claim2_amended_fit_short_raises_and_resets
    (_fit (mkTICA none 1 (mkRat 1 20) false) [[1], [2]]) [[[3]]] (by decide)
    (by intro X hX; simp at hX; subst hX; decide)
  exact ⟨by decide, h.1, h.2.2.1⟩

/-- Claim C3: fit() on an already-fitted model fully discards the prior
statistics: after refitting with a single sequence C strictly longer than
the lag time, the observation count is exactly the length of C, the
sequence count is exactly 1, and every accumulator equals what a fresh
model with the same constructor parameters accumulates from C alone,
independent of the prior state. -/
theorem claim3_refit_discards_prior (s : TICA) (C : Mat) (nc0 : Option Nat) (g : ℚ)
    (wt : Bool) (h : s.lag_time < C.length) :
    (fit s [C]).2 = none ∧
    (fit s [C]).1.n_observations_ = some C.length ∧
    (fit s [C]).1.n_sequences_ = some 1 ∧
    (fit s [C]).1.outer_0_to_T_lagged =
      (_fit (mkTICA nc0 s.lag_time g wt) C).outer_0_to_T_lagged ∧
    (fit s [C]).1.sum_0_to_TminusTau =
      (_fit (mkTICA nc0 s.lag_time g wt) C).sum_0_to_TminusTau ∧
    (fit s [C]).1.sum_tau_to_T = (_fit (mkTICA nc0 s.lag_time g wt) C).sum_tau_to_T ∧
    (fit s [C]).1.sum_0_to_T = (_fit (mkTICA nc0 s.lag_time g wt) C).sum_0_to_T ∧
    (fit s [C]).1.outer_0_to_TminusTau =
      (_fit (mkTICA nc0 s.lag_time g wt) C).outer_0_to_TminusTau ∧
    (fit s [C]).1.outer_offset_to_T =
      (_fit (mkTICA nc0 s.lag_time g wt) C).outer_offset_to_T := by
  have hnot : ¬ C.length ≤ s.lag_time := not_le.mpr h
  have hA : ({ s with initialized := false } : TICA).initialized = false := rfl
  have hL := _fit_fresh { s with initialized := false } C hA hnot
  have hR := _fit_fresh (mkTICA nc0 s.lag_time g wt) C rfl hnot
  refine ⟨?_, ?_, ?_, ?_, ?_, ?_, ?_, ?_, ?_⟩
  · show (if ([C].foldl _fit { s with initialized := false }).n_sequences_ = some 0
      then some PyErr.valueErrorShort else none) = none
    rw [List.foldl_cons, List.foldl_nil, hL]
    rfl
  · show ([C].foldl _fit { s with initialized := false }).n_observations_ = some C.length
    rw [List.foldl_cons, List.foldl_nil, hL]
  · show ([C].foldl _fit { s with initialized := false }).n_sequences_ = some 1
    rw [List.foldl_cons, List.foldl_nil, hL]
  · show ([C].foldl _fit { s with initialized := false }).outer_0_to_T_lagged =
      (_fit (mkTICA nc0 s.lag_time g wt) C).outer_0_to_T_lagged
    rw [List.foldl_cons, List.foldl_nil, hL, hR]
    rfl
  · show ([C].foldl _fit { s with initialized := false }).sum_0_to_TminusTau =
      (_fit (mkTICA nc0 s.lag_time g wt) C).sum_0_to_TminusTau
    rw [List.foldl_cons, List.foldl_nil, hL, hR]
    rfl
  · show ([C].foldl _fit { s with initialized := false }).sum_tau_to_T =
      (_fit (mkTICA nc0 s.lag_time g wt) C).sum_tau_to_T
    rw [List.foldl_cons, List.foldl_nil, hL, hR]
    rfl
  · show ([C].foldl _fit { s with initialized := false }).sum_0_to_T =
      (_fit (mkTICA nc0 s.lag_time g wt) C).sum_0_to_T
    rw [List.foldl_cons, List.foldl_nil, hL, hR]
  · show ([C].foldl _fit { s with initialized := false }).outer_0_to_TminusTau =
      (_fit (mkTICA nc0 s.lag_time g wt) C).outer_0_to_TminusTau
    rw [List.foldl_cons, List.foldl_nil, hL, hR]
    rfl
  · show ([C].foldl _fit { s with initialized := false }).outer_offset_to_T =
      (_fit (mkTICA nc0 s.lag_time g wt) C).outer_offset_to_T
    rw [List.foldl_cons, List.foldl_nil, hL, hR]
    rfl

/-- Claim C3 witness: a model fitted on one sequence, refit with another. -/
theorem claim3_witness :
    (_fit (mkTICA none 1 (mkRat 1 20) false) [[1], [2]]).lag_time <
      ([[5], [7], [9]] : Mat).length ∧
    (fit (_fit (mkTICA none 1 (mkRat 1 20) false) [[1], [2]]) [[[5], [7], [9]]]).2 = none ∧
    (fit (_fit (mkTICA none 1 (mkRat 1 20) false) [[1], [2]]) [[[5], [7], [9]]]).1.n_observations_ =
      some 3 ∧
    (fit (_fit (mkTICA none 1 (mkRat 1 20) false) [[1], [2]]) [[[5], [7], [9]]]).1.n_sequences_ =
      some 1 := by
  have h := claim3_refit_discards_prior (_fit (mkTICA none 1 (mkRat 1 20) false) [[1], [2]])
    [[5], [7], [9]] none (mkRat 1 20) false (by decide)
  exact ⟨by decide, h.1, h.2.1, h.2.2.1⟩

/-- Claim C1: on a fresh model, partial_fit(A) followed by partial_fit(B)
produces exactly the same model state as fit([A, B]) on a fresh model with
the same constructor parameters (so in particular the six running sums,
n_observations_ and n_sequences_ agree), the batch call raises no error,
and every derived eigensystem quantity (eigenvalues_, components_) solved
by any eigensolver from that state agrees. -/
theorem claim1_incremental_eq_batch (nc0 : Option Nat) (lag : Nat) (g : ℚ) (wt : Bool)
    (A B : Mat) (hA : lag < A.length) (hB : lag < B.length) (_hw : width A = width B) :
    (fit (mkTICA nc0 lag g wt) [A, B]).2 = none ∧
    (fit (mkTICA nc0 lag g wt) [A, B]).1 = _fit (_fit (mkTICA nc0 lag g wt) A) B ∧
    ∀ solver : Solver,
      eigenvaluesE solver (fit (mkTICA nc0 lag g wt) [A, B]).1 =
        eigenvaluesE solver (_fit (_fit (mkTICA nc0 lag g wt) A) B) ∧
      componentsE solver (fit (mkTICA nc0 lag g wt) [A, B]).1 =
        componentsE solver (_fit (_fit (mkTICA nc0 lag g wt) A) B) := by
  have hupd : ({ mkTICA nc0 lag g wt with initialized := false } : TICA) =
      mkTICA nc0 lag g wt := rfl
  have hstate : (fit (mkTICA nc0 lag g wt) [A, B]).1 =
      _fit (_fit (mkTICA nc0 lag g wt) A) B := by
    show [A, B].foldl _fit { mkTICA nc0 lag g wt with initialized := false } = _
    rw [hupd, List.foldl_cons, List.foldl_cons, List.foldl_nil]
  have hnA : ¬ A.length ≤ (mkTICA nc0 lag g wt).lag_time := not_le.mpr hA
  have hnB : ¬ B.length ≤ (_fit (mkTICA nc0 lag g wt) A).lag_time := by
    rw [_fit_lag]
    exact not_le.mpr hB
  have hinit : (_fit (mkTICA nc0 lag g wt) A).initialized = true :=
    _fit_init_true _ _ rfl
  have hseq : (_fit (_fit (mkTICA nc0 lag g wt) A) B).n_sequences_ = some 2 := by
    rw [_fit_grow _ _ hinit hnB, _fit_fresh _ _ rfl hnA]
    rfl
  refine ⟨?_, hstate, fun solver => ⟨by rw [hstate], by rw [hstate]⟩⟩
  show (if ([A, B].foldl _fit { mkTICA nc0 lag g wt with initialized := false }).n_sequences_ =
      some 0 then some PyErr.valueErrorShort else none) = none
  rw [hupd, List.foldl_cons, List.foldl_cons, List.foldl_nil, hseq]
  rfl

/-- Claim C1 witness: two two-sample, one-feature sequences at lag 1. -/
theorem claim1_witness :
    (fit (mkTICA none 1 (mkRat 1 20) false) [[[1], [2]], [[3], [4]]]).2 = none ∧
    (fit (mkTICA none 1 (mkRat 1 20) false) [[[1], [2]], [[3], [4]]]).1 =
      _fit (_fit (mkTICA none 1 (mkRat 1 20) false) [[1], [2]]) [[3], [4]] ∧
    eigenvaluesE trivialSolver
        (fit (mkTICA none 1 (mkRat 1 20) false) [[[1], [2]], [[3], [4]]]).1 =
      eigenvaluesE trivialSolver
        (_fit (_fit (mkTICA none 1 (mkRat 1 20) false) [[1], [2]]) [[3], [4]]) := by
  have h := claim1_incremental_eq_batch none 1 (mkRat 1 20) false [[1], [2]] [[3], [4]]
    (by decide) (by decide) (by decide)
  exact ⟨h.1, h.2.1, (h.2.2 trivialSolver).1⟩

/-- Claim C4 counterexample: the claim asserts that n_components never
exceeds n_features even when the constructor received a larger value, but
initialize0 only fills n_components when it is unset, so a model asked for
3 components and fitted on 2-feature data keeps n_components = 3 above
n_features = 2. -/
theorem claim4_counterexample :
    (_fit (mkTICA (some 3) 1 (mkRat 1 20) false) [[1, 2], [3, 4], [5, 6]]).n_components =
      some 3 ∧
    (_fit (mkTICA (some 3) 1 (mkRat 1 20) false) [[1, 2], [3, 4], [5, 6]]).n_features =
      some 2 ∧
    ¬ ncD (_fit (mkTICA (some 3) 1 (mkRat 1 20) false) [[1, 2], [3, 4], [5, 6]]) ≤
      nfD (_fit (mkTICA (some 3) 1 (mkRat 1 20) false) [[1, 2], [3, 4], [5, 6]]) := by
  refine ⟨by decide, by decide, by decide⟩

/-- Claim C4 as amended: when n_components is unset at construction the
first data fixes it to n_features (so it cannot exceed it), and for a
fitted, not yet solved model whose n_components lies between 1 and
n_features the eigenvalues_ list of any eigensolver respecting the scipy
length contract is non-increasing with length min(n_components,
n_features); a user-supplied n_components above n_features is kept
unclamped (see the counterexample), in which case the requested eigvals
range is invalid and no eigenvalue list is produced at all. -/
theorem claim4_amended_clamp_only_when_unset :
    (∀ (lag : Nat) (g : ℚ) (wt : Bool) (X : Mat),
      (_fit (mkTICA none lag g wt) X).n_components =
        (_fit (mkTICA none lag g wt) X).n_features) ∧
    (∀ (solver : Solver) (s : TICA) (l : List ℚ),
      (∀ (lo hi : Int) (A B : Mat), 0 ≤ lo → lo ≤ hi →
        (solver lo hi A B).1.length = (hi - lo + 1).toNat ∧
        (solver lo hi A B).2.length = (hi - lo + 1).toNat) →
      s.is_dirty = true → 1 ≤ ncD s → ncD s ≤ nfD s →
      eigenvaluesE solver s = Except.ok l →
      List.Sorted (fun a b : ℚ => b ≤ a) l ∧ l.length = min (ncD s) (nfD s)) := by
  constructor
  · intro lag g wt X
    by_cases hX : X.length ≤ lag
    · have key : _fit (mkTICA none lag g wt) X =
          initialize0 (mkTICA none lag g wt) (width X) := by
        rw [_fit, accumulate_short]
        rw [initialize0_lag]
        exact hX
      rw [key, initialize0_run _ _ rfl]
      rfl
    · rw [_fit_fresh (mkTICA none lag g wt) X rfl hX]
      rfl
  · intro solver s l hcontract hdirty h1 h2 hok
    have hlo : (0 : Int) ≤ (nfD s : Int) - (ncD s : Int) := by
      omega
    have hhi : (nfD s : Int) - (ncD s : Int) ≤ (nfD s : Int) - 1 := by
      omega
    have hguard : ¬ ((nfD s : Int) - (ncD s : Int) < 0 ∨
        (nfD s : Int) - 1 < (nfD s : Int) - (ncD s : Int)) := by
      omega
    unfold eigenvaluesE _solve at hok
    rw [hdirty] at hok
    simp only [Bool.true_eq_false, if_false] at hok
    rcases hobs : s.n_observations_ with _ | n
    all_goals rw [hobs] at hok
    · simp [Except.map] at hok
    dsimp only at hok
    rcases eq_or_ne n 0 with rfl | hn
    · simp [Except.map] at hok
    rw [if_neg hn] at hok
    split at hok
    · simp [Except.map] at hok
    split at hok
    · simp [Except.map] at hok
    simp only [Except.map] at hok
    injection hok with hok
    obtain ⟨hv1, hv2⟩ := hcontract ((nfD s : Int) - (ncD s : Int)) ((nfD s : Int) - 1)
      (offset_correlation_ s)
      (madd (covariance_ s)
        (smulM (s.gamma / (nfD s : ℚ) * traceM (covariance_ s)) (eyeN (nfD s))))
      hlo hhi
    set vv := solver ((nfD s : Int) - (ncD s : Int)) ((nfD s : Int) - 1)
      (offset_correlation_ s)
      (madd (covariance_ s)
        (smulM (s.gamma / (nfD s : ℚ) * traceM (covariance_ s)) (eyeN (nfD s)))) with hvv
    have hk : ((nfD s : Int) - 1 - ((nfD s : Int) - (ncD s : Int)) + 1).toNat = ncD s := by
      omega
    have hsorted : List.Sorted pairGE (List.insertionSort pairGE (vv.1.zip vv.2)) :=
      List.sorted_insertionSort pairGE (vv.1.zip vv.2)
    have hlen : (List.insertionSort pairGE (vv.1.zip vv.2)).length = ncD s := by
      rw [(List.perm_insertionSort pairGE (vv.1.zip vv.2)).length_eq,
        List.length_zip vv.1 vv.2, hv1, hv2, hk]
      exact Nat.min_self _
    subst hok
    constructor
    · have hmap : (List.map Prod.fst (List.insertionSort pairGE (vv.1.zip vv.2))).Pairwise
          (fun a b : ℚ => b ≤ a) :=
        List.Pairwise.map Prod.fst (fun _ _ hab => hab) hsorted
      exact hmap.sublist (List.take_sublist _ _)
    · rw [List.length_take, List.length_map, hlen, Nat.min_self,
        Nat.min_eq_left h2]

/-- Claim C4 amended witness: the demo model with the stand-in solver,
whose length contract is verified directly. -/
theorem claim4_witness :
    ((_fit (mkTICA none 1 (mkRat 1 20) false) [[1, 2], [3, 4]]).n_components =
      (_fit (mkTICA none 1 (mkRat 1 20) false) [[1, 2], [3, 4]]).n_features) ∧
    List.Sorted (fun a b : ℚ => b ≤ a) [0] ∧
    ([0] : List ℚ).length = min (ncD demoModel) (nfD demoModel) := by
  have hcontract : ∀ (lo hi : Int) (A B : Mat), 0 ≤ lo → lo ≤ hi →
      (trivialSolver lo hi A B).1.length = (hi - lo + 1).toNat ∧
      (trivialSolver lo hi A B).2.length = (hi - lo + 1).toNat := by
    intro lo hi A B _ _
    refine ⟨?_, ?_⟩ <;>
      · simp only [trivialSolver]
        rw [List.length_replicate]
  have hok : eigenvaluesE trivialSolver demoModel = Except.ok [0] := by
    norm_num [demoModel, eigenvaluesE, _solve, _fit, accumulate, initialize0, mkTICA,
      offset_correlation_, covariance_, means_, two_N, vadd, madd, msub, mdiv, vdiv, smulM,
      outer, colSum, outerSum, transposeM, zeroMat, zeroVec, width, preWindow, ncD, nfD,
      trivialSolver, traceM, eyeN, List.insertionSort, List.orderedInsert, pairGE,
      List.getD, List.range_succ, List.range_zero, Except.map]
  have h := (claim4_amended_clamp_only_when_unset.2) trivialSolver demoModel [0]
    hcontract (by decide) (by decide) (by decide) hok
  exact ⟨claim4_amended_clamp_only_when_unset.1 1 (mkRat 1 20) false [[1, 2], [3, 4]],
    h.1, h.2⟩

/-- Claim C5 counterexample: the claim includes a freshly constructed,
never-fitted model among those that must fail with the RuntimeError, but on
such a model n_observations_ is still None, the Python comparison
None == 0 is False, and the subsequent two_N arithmetic on None raises
TypeError instead of the claimed RuntimeError. -/
theorem claim5_counterexample :
    eigenvaluesE trivialSolver (mkTICA none 1 (mkRat 1 20) false) =
      Except.error PyErr.typeError ∧
    PyErr.typeError ≠ PyErr.runtimeNotFit := by
  exact ⟨rfl, by decide⟩

/-- Claim C5 as amended: on an initialized model with zero accumulated
observations and no previously cached solve (the dirty flag still set),
every derived property that triggers the solve - eigenvalues_,
eigenvectors_, components_, timescales_, score_ - fails with the
RuntimeError carrying the fit-before-use message; a never-initialized fresh
model instead fails with a TypeError from arithmetic on None (see the
counterexample). -/
theorem claim5_amended_zero_observations_runtime_error (solver : Solver) (log : ℚ → ℚ)
    (s : TICA) (hobs : s.n_observations_ = some 0) (hdirty : s.is_dirty = true) :
    eigenvaluesE solver s = Except.error PyErr.runtimeNotFit ∧
    eigenvectorsE solver s = Except.error PyErr.runtimeNotFit ∧
    componentsE solver s = Except.error PyErr.runtimeNotFit ∧
    timescalesE log solver s = Except.error PyErr.runtimeNotFit ∧
    scoreE solver s = Except.error PyErr.runtimeNotFit := by
  have hsolve : _solve solver s = Except.error PyErr.runtimeNotFit := by
    unfold _solve
    rw [hdirty]
    simp only [Bool.true_eq_false, if_false]
    rw [hobs]
    rfl
  refine ⟨?_, ?_, ?_, ?_, ?_⟩ <;>
    simp [eigenvaluesE, eigenvectorsE, componentsE, timescalesE, scoreE, hsolve, Except.map]

/-- Claim C5 amended witness: a model initialized by one too-short sequence
holds zero observations and errors with the RuntimeError on every derived
property. -/
theorem claim5_witness :
    (_fit (mkTICA none 2 (mkRat 1 20) false) [[1], [2]]).n_observations_ = some 0 ∧
    eigenvaluesE trivialSolver (_fit (mkTICA none 2 (mkRat 1 20) false) [[1], [2]]) =
      Except.error PyErr.runtimeNotFit ∧
    scoreE trivialSolver (_fit (mkTICA none 2 (mkRat 1 20) false) [[1], [2]]) =
      Except.error PyErr.runtimeNotFit := by
  have h := claim5_amended_zero_observations_runtime_error trivialSolver demoLog
    (_fit (mkTICA none 2 (mkRat 1 20) false) [[1], [2]]) (by decide) (by decide)
  exact ⟨by decide, h.1, h.2.2.2.2⟩

/-- Claim C6: timescales_ is obtained from the same solved, sorted, sliced
eigenvalue list that eigenvalues_ returns by applying
-lag_time / log(eigenvalue) entrywise, in the same order. -/
theorem claim6_timescales_formula (log : ℚ → ℚ) (solver : Solver) (s : TICA)
    (vals : List ℚ) (h : eigenvaluesE solver s = Except.ok vals) :
    timescalesE log solver s =
      Except.ok (vals.map fun l => -(s.lag_time : ℚ) / log l) := by
  unfold eigenvaluesE at h
  unfold timescalesE
  rcases hsolve : _solve solver s with e | p
  · rw [hsolve] at h
    simp [Except.map] at h
  · rw [hsolve] at h
    simp only [Except.map] at h ⊢
    injection h with h
    rw [h]

/-- Claim C6 witness: the demo model with the stand-in solver and log. -/
theorem claim6_witness :
    eigenvaluesE trivialSolver demoModel = Except.ok [0] ∧
    timescalesE demoLog trivialSolver demoModel =
      Except.ok (([0] : List ℚ).map fun l => -((demoModel.lag_time : ℚ)) / demoLog l) := by
  have hok : eigenvaluesE trivialSolver demoModel = Except.ok [0] := by
    norm_num [demoModel, eigenvaluesE, _solve, _fit, accumulate, initialize0, mkTICA,
      offset_correlation_, covariance_, means_, two_N, vadd, madd, msub, mdiv, vdiv, smulM,
      outer, colSum, outerSum, transposeM, zeroMat, zeroVec, width, preWindow, ncD, nfD,
      trivialSolver, traceM, eyeN, List.insertionSort, List.orderedInsert, pairGE,
      List.getD, List.range_succ, List.range_zero, Except.map]
  exact ⟨hok, claim6_timescales_formula demoLog trivialSolver demoModel [0] hok⟩

/-- accumulate keeps n_observations_ defined. -/
theorem accumulate_obs (t : TICA) (X : Mat) (h : t.n_observations_.isSome = true) :
    ((accumulate t X).n_observations_).isSome = true := by
  unfold accumulate
  split
  · exact h
  · obtain ⟨n, hn⟩ := Option.isSome_iff_exists.mp h
    simp [hn]

/-- initialize0 defines n_observations_ when starting uninitialized, and
keeps it defined otherwise. -/
theorem initialize0_obs (s : TICA) (n : Nat)
    (h : s.initialized = false ∨ s.n_observations_.isSome = true) :
    ((initialize0 s n).n_observations_).isSome = true := by
  rcases h with h | h
  · rw [initialize0_run s n h]
    rfl
  · unfold initialize0
    split
    · exact h
    · rfl

/-- _fit leaves n_observations_ defined on a fresh or initialized model. -/
theorem _fit_obs (s : TICA) (X : Mat)
    (h : s.initialized = false ∨ s.n_observations_.isSome = true) :
    ((_fit s X).n_observations_).isSome = true := by
  rw [_fit]
  exact accumulate_obs _ X (initialize0_obs s _ h)

/-- Folding _fit preserves a defined n_observations_. -/
theorem foldl_fit_obs (l : List Mat) : ∀ t : TICA, t.n_observations_.isSome = true →
    ((l.foldl _fit t).n_observations_).isSome = true := by
  induction l with
  | nil => intro t h; exact h
  | cons X rest ih =>
    intro t h
    rw [List.foldl_cons]
    exact ih _ (_fit_obs t X (Or.inr h))

/-- The fresh scoring model built inside score() has a defined observation
count as soon as at least one scoring sequence was supplied. -/
theorem score_m2_obs (lag : Nat) (seqs : List Mat) (hne : seqs ≠ []) :
    ((seqs.foldl _fit (mkTICA none lag (1 / 20) false)).n_observations_).isSome = true := by
  obtain ⟨X, rest, rfl⟩ := List.exists_cons_of_ne_nil hne
  rw [List.foldl_cons]
  exact foldl_fit_obs rest _ (_fit_obs _ X (Or.inl rfl))

/-- Claim C7: on an initialized model whose eigenvector read succeeds,
score(sequences) returns trace(numerator . inverse(denominator)), where the
numerator and denominator are the quadratic forms of the fresh scoring
model's offset correlation and covariance in the basis V = eigenvectors_,
and when the external inverse reports the denominator singular the call
returns NaN instead of raising. -/
theorem claim7_score_trace_or_nan (solver : Solver) (inv : Mat → Option Mat) (s : TICA)
    (seqs : List Mat) (V : List Vec) (hinit : s.initialized = true)
    (hV : eigenvectorsE solver s = Except.ok V) (hne : seqs ≠ []) :
    (inv (quadForm V (covariance_ (seqs.foldl _fit (mkTICA none s.lag_time (1 / 20) false)))) =
        none →
      score solver inv s seqs = Except.ok ScoreR.nan) ∧
    (∀ dinv : Mat,
      inv (quadForm V (covariance_ (seqs.foldl _fit (mkTICA none s.lag_time (1 / 20) false)))) =
        some dinv →
      score solver inv s seqs = Except.ok (ScoreR.val (traceM (matMul
        (quadForm V (offset_correlation_
          (seqs.foldl _fit (mkTICA none s.lag_time (1 / 20) false)))) dinv)))) := by
  obtain ⟨n, hn⟩ := Option.isSome_iff_exists.mp (score_m2_obs s.lag_time seqs hne)
  constructor
  · intro hinv
    unfold score
    rw [hinit]
    simp only [Bool.true_eq_false, if_false]
    rw [hV]
    dsimp only
    rw [hn]
    dsimp only
    rw [hinv]
  · intro dinv hinv
    unfold score
    rw [hinit]
    simp only [Bool.true_eq_false, if_false]
    rw [hV]
    dsimp only
    rw [hn]
    dsimp only
    rw [hinv]

/-- Claim C7 witness: the demo model scored on one sequence with an inverse
oracle that reports every matrix singular, hitting the NaN branch. -/
theorem claim7_witness :
    eigenvectorsE trivialSolver demoModel = Except.ok [[0]] ∧
    score trivialSolver (fun _ => none) demoModel [[[1], [2]]] = Except.ok ScoreR.nan := by
  have hV : eigenvectorsE trivialSolver demoModel = Except.ok [[0]] := by
    norm_num [demoModel, eigenvectorsE, _solve, _fit, accumulate, initialize0, mkTICA,
      offset_correlation_, covariance_, means_, two_N, vadd, madd, msub, mdiv, vdiv, smulM,
      outer, colSum, outerSum, transposeM, zeroMat, zeroVec, width, preWindow, ncD, nfD,
      trivialSolver, traceM, eyeN, List.insertionSort, List.orderedInsert, pairGE,
      List.getD, List.range_succ, List.range_zero, Except.map]
  have h := claim7_score_trace_or_nan trivialSolver (fun _ => none) demoModel [[[1], [2]]]
    [[0]] (by decide) hV (by decide)
  exact ⟨hV, h.1 rfl⟩

/-- Claim C9: cache() performs extraction only when the per-dataset cache
directory did not previously exist, and calling get() twice in sequence on
the same descriptor invokes extraction only on the first call, the second
call being a pure cache hit.  The hypothesis that the per-dataset directory
differs from the cache root holds for every descriptor the module builds,
since data_dir is data_home extended with a nonempty subdirectory name. -/
theorem claim9_cache_once_get_twice (d : DDataset) (fs : FSState)
    (hne : d.data_dir ≠ d.data_home) :
    ((cache d fs).2.extractCount =
      if d.data_dir ∈ fs.dirs then fs.extractCount else fs.extractCount + 1) ∧
    get (get d fs).1 (get d fs).2 = get d fs ∧
    (get d fs).1.cached = true ∧
    (get (get d fs).1 (get d fs).2).2.extractCount ≤ fs.extractCount + 1 := by
  have hmem : ∀ fs1 : FSState,
      (d.data_dir ∈ (if d.data_home ∈ fs1.dirs then fs1
        else { fs1 with dirs := d.data_home :: fs1.dirs }).dirs) ↔ d.data_dir ∈ fs1.dirs := by
    intro fs1
    split
    · exact Iff.rfl
    · simp [hne]
  refine ⟨?_, ?_, ?_, ?_⟩
  · by_cases hdir : d.data_dir ∈ fs.dirs
    · simp only [cache]
      rw [if_pos ((hmem fs).mpr hdir), if_pos hdir]
      split <;> rfl
    · simp only [cache]
      rw [if_neg (fun h => hdir ((hmem fs).mp h)), if_neg hdir]
      split <;> rfl
  · by_cases hc : d.cached
    · simp [get, hc]
    · simp [get, hc, cache]
  · by_cases hc : d.cached
    · simp [get, hc]
    · simp [get, hc, cache]
  · by_cases hc : d.cached
    · simp [get, hc]
    · simp only [get, if_neg hc, cache]
      repeat' split
      all_goals simp_all

/-- Claim C9 witness: the theorem applied to the demo descriptor on an
empty filesystem. -/
theorem claim9_witness :
    ((cache demoDataset demoFS).2.extractCount =
      if demoDataset.data_dir ∈ demoFS.dirs then demoFS.extractCount
      else demoFS.extractCount + 1) ∧
    get (get demoDataset demoFS).1 (get demoDataset demoFS).2 = get demoDataset demoFS ∧
    (get demoDataset demoFS).1.cached = true ∧
    (get (get demoDataset demoFS).1 (get demoDataset demoFS).2).2.extractCount ≤
      demoFS.extractCount + 1 :=
  claim9_cache_once_get_twice demoDataset demoFS (by decide)

/-- Claim C8: the claim states that constructing DESRESFIP35_2 performs its
own base initialization like the other three datasets and succeeds with the
FIP35-variant-2 literals.  The source instead passes DESRESFIP35_1 to the
super call on line 217, and Python rejects super(T, obj) when the class of
obj is not a subclass of T, so construction of the variant-2 descriptor
always raises TypeError; the variant-1 constructor by contrast succeeds
with its literals.  This theorem evaluates both constructors at a concrete
tarball directory. -/
theorem claim8_fip35_2_construction_raises :
    initFIP35_2 "TARBALLS" none 5 = Except.error PyErr.typeError ∧
    (initFIP35_1 "TARBALLS" none 5).map (fun d => d.tarball_filename) =
      Except.ok "TARBALLS/DESRES-Trajectory-ww_1-protein.tar" ∧
    (initFIP35_1 "TARBALLS" none 5).map (fun d => d.name) = Except.ok "DESRES_FIP35_1" := by
  refine ⟨?_, ?_, ?_⟩ <;> rfl

/-- Claim C10: accumulating a single sequence of length at most lag_time
into a fresh model with unset n_components still initializes it: the
feature count is fixed to the column count of that sequence, n_components
becomes n_features, the six accumulators are zero, and both counters are
zero. -/
theorem claim10_short_sequence_initializes (lag : Nat) (g : ℚ) (wt : Bool) (X : Mat)
    (h : X.length ≤ lag) :
    (_fit (mkTICA none lag g wt) X).n_features = some (width X) ∧
    (_fit (mkTICA none lag g wt) X).n_components = some (width X) ∧
    (_fit (mkTICA none lag g wt) X).n_observations_ = some 0 ∧
    (_fit (mkTICA none lag g wt) X).n_sequences_ = some 0 ∧
    (_fit (mkTICA none lag g wt) X).outer_0_to_T_lagged = zeroMat (width X) (width X) ∧
    (_fit (mkTICA none lag g wt) X).sum_0_to_TminusTau = zeroVec (width X) ∧
    (_fit (mkTICA none lag g wt) X).sum_tau_to_T = zeroVec (width X) ∧
    (_fit (mkTICA none lag g wt) X).sum_0_to_T = zeroVec (width X) ∧
    (_fit (mkTICA none lag g wt) X).outer_0_to_TminusTau = zeroMat (width X) (width X) ∧
    (_fit (mkTICA none lag g wt) X).outer_offset_to_T = zeroMat (width X) (width X) := by
  have key : _fit (mkTICA none lag g wt) X = initialize0 (mkTICA none lag g wt) (width X) := by
    rw [_fit, accumulate_short]
    rw [initialize0_lag]
    exact h
  rw [key, initialize0_run _ _ rfl]
  exact ⟨rfl, rfl, rfl, rfl, rfl, rfl, rfl, rfl, rfl, rfl⟩

/-- Claim C10 witness: a two-sample, two-feature sequence at lag 2. -/
theorem claim10_witness :
    ([[1, 2], [3, 4]] : Mat).length ≤ 2 ∧
    (_fit (mkTICA none 2 (mkRat 1 20) false) [[1, 2], [3, 4]]).n_features = some 2 ∧
    (_fit (mkTICA none 2 (mkRat 1 20) false) [[1, 2], [3, 4]]).n_components = some 2 ∧
    (_fit (mkTICA none 2 (mkRat 1 20) false) [[1, 2], [3, 4]]).n_observations_ = some 0 := by
  have h := claim10_short_sequence_initializes 2 (mkRat 1 20) false [[1, 2], [3, 4]]
    (by decide)
  exact ⟨by decide, h.1, h.2.1, h.2.2.1⟩

end MSMBuilder
